import Mathlib

/-!
Shallow embedding of the webhook notification subsystem of docling-serve:
`docling_serve/http_notifier.py` (HttpNotifier), `docling_serve/notifier.py`
(MultiNotifier) and `docling_serve/datamodel/webhook.py`
(validate_webhook_url, WebhookConfig).

External libraries are modelled by their interface: HMAC-SHA256, JSON
serialization and `time.time()` are parameters of the dispatch function
(computed once, exactly as in the source); the HTTP transport is an oracle
`send : Nat → AttemptResult` giving the result of each attempt;
`asyncio.gather` is modelled denotationally by its documented default
semantics.  Python `dict`s are modelled as ordered association lists with
Python's update semantics (existing key keeps its position, value replaced;
new key appended at the end).
-/

namespace DoclingServe

/-- Python dict item assignment `d[k] = v`: the first binding of `k` is
replaced in place, otherwise `(k, v)` is appended at the end. -/
def dictSet {α : Type} : List (String × α) → String → α → List (String × α)
  | [], k, v => [(k, v)]
  | kv :: rest, k, v =>
    if kv.1 = k then (k, v) :: rest else kv :: dictSet rest k v

/-- Python dict lookup `d.get(k)`. -/
def dictGet? {α : Type} : List (String × α) → String → Option α
  | [], _ => none
  | kv :: rest, k => if kv.1 = k then some kv.2 else dictGet? rest k

/-- Python `d.pop(k, None)`: remove every binding of `k` (a Python dict has
at most one). -/
def dictPop {α : Type} (d : List (String × α)) (k : String) : List (String × α) :=
  d.filter (fun kv => decide (kv.1 ≠ k))

/-- Python dict merge `\x7b**a, **b\x7d`: every binding of `b` is written into
`a` in order, later writes winning. -/
def dictMerge {α : Type} (a b : List (String × α)) : List (String × α) :=
  b.foldl (fun acc kv => dictSet acc kv.1 kv.2) a

/-- `WebhookConfig` from `docling_serve/datamodel/webhook.py`.  `url` is the
textual form of the `AnyHttpUrl` (or `none` when unset); `backoff_factor` is
a real number of seconds, modelled as `ℚ`. -/
structure WebhookConfig where
  url : Option String
  method : String
  secret : Option String
  headers : List (String × String)
  max_retries : Int
  backoff_factor : ℚ
deriving DecidableEq, Repr

/-- The pydantic field constraints of `WebhookConfig`:
`max_retries : int = Field(ge=0)` and `backoff_factor : float = Field(ge=0.0)`. -/
def WebhookConfig.Valid (c : WebhookConfig) : Prop :=
  0 ≤ c.max_retries ∧ 0 ≤ c.backoff_factor

/-- Python truthiness of an optional string (`if config.secret:`):
`None` and the empty string are falsy. -/
def pyTruthy : Option String → Bool
  | none => false
  | some s => decide (s ≠ "")

/-- Python `str(...)` of an optional URL, as applied by `str(config.url)`. -/
def pyStrUrl : Option String → String
  | none => "None"
  | some u => u

/-- The snapshot of a task returned by `orchestrator.task_status`, reduced to
the fields `_build_payload` and `notify_task_subscribers` read.  `status` and
`type` are already in their plain string form (the source normalizes enum
values to strings). -/
structure TaskSnapshot where
  task_id : String
  status : String
  type : String
  meta : String
  completed : Bool
deriving DecidableEq, Repr

/-- The webhook notification payload built by `HttpNotifier._build_payload`. -/
structure Payload where
  task_id : String
  status : String
  type : String
  processing_meta : String
  result_locator : Option String
deriving DecidableEq, Repr

/-- `HttpNotifier._build_payload`: `resultKey` is the orchestrator's
best-effort `_task_result_keys` lookup for this task id. -/
def build_payload (task_id : String) (task : TaskSnapshot)
    (resultKey : Option String) : Payload :=
  { task_id := task.task_id
    status := task.status
    type := task.type
    processing_meta := task.meta
    result_locator := resultKey }

/-- The mutable state of an `HttpNotifier`: the per-task configuration dict
`_webhook_configs` and the dispatched set `_dispatched`. -/
structure HttpNotifierState where
  webhook_configs : List (String × WebhookConfig)
  dispatched : List String
deriving DecidableEq, Repr

/-- `HttpNotifier.add_task`: `self._dispatched.discard(task_id)`. -/
def HttpNotifierState.add_task (st : HttpNotifierState) (task_id : String) :
    HttpNotifierState :=
  { st with dispatched := st.dispatched.filter (fun x => decide (x ≠ task_id)) }

/-- `HttpNotifier.remove_task`: pop the configuration and discard the
dispatched marker. -/
def HttpNotifierState.remove_task (st : HttpNotifierState) (task_id : String) :
    HttpNotifierState :=
  { webhook_configs := dictPop st.webhook_configs task_id
    dispatched := st.dispatched.filter (fun x => decide (x ≠ task_id)) }

/-- `HttpNotifier.register_webhook`: a `None` config is a no-op, otherwise
store or replace the configuration for the task. -/
def HttpNotifierState.register_webhook (st : HttpNotifierState) (task_id : String) :
    Option WebhookConfig → HttpNotifierState
  | none => st
  | some c => { st with webhook_configs := dictSet st.webhook_configs task_id c }

/-- The outcome of `await self.orchestrator.task_status(task_id=task_id)`:
either the lookup raised, or it returned a task snapshot. -/
inductive FetchResult
  | failure
  | ok (task : TaskSnapshot)
deriving DecidableEq, Repr

/-- Observable result of one `notify_task_subscribers` call: the state after
the call, whether the orchestrator was queried (`fetched`), and the
fire-and-forget dispatch that was spawned via `asyncio.create_task`, if any.
The function is total: the source catches the orchestrator exception and
never raises to its caller. -/
structure NotifyResult where
  state : HttpNotifierState
  fetched : Bool
  spawned : Option (String × WebhookConfig × Payload)
deriving DecidableEq, Repr

/-- `HttpNotifier.notify_task_subscribers`.  `fetch` is the result the
orchestrator lookup would produce if reached; `resultKey` is the
orchestrator's result-locator lookup used by `_build_payload`. -/
def notify_task_subscribers (st : HttpNotifierState) (task_id : String)
    (fetch : FetchResult) (resultKey : Option String) : NotifyResult :=
  match dictGet? st.webhook_configs task_id with
  | none => ⟨st, false, none⟩
  | some config =>
    if task_id ∈ st.dispatched then ⟨st, false, none⟩
    else
      match fetch with
      | .failure => ⟨st, true, none⟩
      | .ok task =>
        if task.completed = false then ⟨st, true, none⟩
        else
          ⟨{ st with dispatched := st.dispatched.insert task_id }, true,
            some (task_id, config, build_payload task_id task resultKey)⟩

/-- A sequence of `notify_task_subscribers` calls on the same task id,
threading the state; returns the final state and how many dispatch
sequences were spawned in total. -/
def notifyMany : HttpNotifierState → String →
    List (FetchResult × Option String) → HttpNotifierState × Nat
  | st, _, [] => (st, 0)
  | st, tid, (f, rk) :: rest =>
    let r := notify_task_subscribers st tid f rk
    let r2 := notifyMany r.state tid rest
    (r2.1, (if r.spawned.isSome then 1 else 0) + r2.2)

/-- Result of one HTTP attempt, as observed by the `try` block of
`HttpNotifier._dispatch`: either a response with a status code, or a
transport-level exception (connection error, timeout, ...). -/
inductive AttemptResult
  | status (code : Nat)
  | transportError
deriving DecidableEq, Repr

/-- `200 <= response.status_code < 300`. -/
def AttemptResult.isSuccess : AttemptResult → Bool
  | .status c => decide (200 ≤ c) && decide (c < 300)
  | .transportError => false

/-- One HTTP request as issued by `client.request(...)` inside the retry
loop of `HttpNotifier._dispatch`. -/
structure HttpRequest where
  method : String
  url : String
  body : String
  headers : List (String × String)
  timeout : ℚ
deriving DecidableEq, Repr

/-- Observable trace of the retry loop: the requests issued (in order), the
sleeps performed between attempts (in order, in seconds), and whether a 2xx
response was obtained. -/
structure DispatchTrace where
  requests : List HttpRequest
  sleeps : List ℚ
  succeeded : Bool
deriving DecidableEq, Repr

/-- The retry loop `for attempt in range(attempts)` of
`HttpNotifier._dispatch`, from iteration `attempt` on; `fuel` is the number
of remaining iterations (`attempts - attempt`; the loop is entered with
`attempt = 0` and `fuel = attempts`).  On a 2xx response the function
returns at once; otherwise, if this is not the last iteration
(`attempt < attempts - 1`), it sleeps `backoff * 2 ** attempt` seconds and
continues. -/
def dispatchLoop (send : Nat → AttemptResult) (req : HttpRequest)
    (backoff : ℚ) (attempts : Nat) : Nat → Nat → DispatchTrace
  | _, 0 => ⟨[], [], false⟩
  | attempt, fuel + 1 =>
    if (send attempt).isSuccess then ⟨[req], [], true⟩
    else if attempt < attempts - 1 then
      let r2 := dispatchLoop send req backoff attempts (attempt + 1) fuel
      ⟨req :: r2.requests, backoff * 2 ^ attempt :: r2.sleeps, r2.succeeded⟩
    else ⟨[req], [], false⟩

/-- Everything `HttpNotifier._dispatch` computes that is visible on the
wire: the composed headers, the generated signature (the source's
`signature_header` variable), the serialized body, and the retry-loop
trace. -/
structure DispatchOutcome where
  headers : List (String × String)
  signature_header : Option String
  body : String
  trace : DispatchTrace
deriving DecidableEq, Repr

/-- `HttpNotifier._dispatch`.  `hmacSha256Hex key msg` stands for
`hmac.new(key.encode(), msg.encode(), hashlib.sha256).hexdigest()`;
`timestamp` is `str(int(time.time()))` and `body` is `json.dumps(payload)`,
both computed exactly once at dispatch start; `send` is the HTTP transport
oracle.  Mirrors the source line by line: default content-type, then the
custom headers merged over it, then (if the secret is truthy) the signature
header, then the timestamp header; `attempts = max(config.max_retries, 0) + 1`
and `backoff = max(config.backoff_factor, 0.0)`. -/
def dispatch (hmacSha256Hex : String → String → String) (config : WebhookConfig)
    (timestamp body : String) (send : Nat → AttemptResult) : DispatchOutcome :=
  let headers0 := dictMerge [("Content-Type", "application/json")] config.headers
  let sig : Option String :=
    if pyTruthy config.secret then
      some (hmacSha256Hex (config.secret.getD "") (timestamp ++ "." ++ body))
    else none
  let headers1 := match sig with
    | some digest => dictSet headers0 "X-Docling-Signature" digest
    | none => headers0
  let headers := dictSet headers1 "X-Docling-Timestamp" timestamp
  let attempts := (max config.max_retries 0).toNat + 1
  let backoff := max config.backoff_factor 0
  let req : HttpRequest :=
    { method := config.method, url := pyStrUrl config.url, body := body
      headers := headers, timeout := 10 }
  ⟨headers, sig, body, dispatchLoop send req backoff attempts 0 attempts⟩

/-- Outcome of one backend hook coroutine in the fan-out composer: it either
returned, or raised an exception. -/
inductive HookOutcome
  | ok
  | error (msg : String)
deriving DecidableEq, Repr

def HookOutcome.isError : HookOutcome → Bool
  | .ok => false
  | .error _ => true

def HookOutcome.errMsg? : HookOutcome → Option String
  | .ok => none
  | .error m => some m

/-- Observable result of `await asyncio.gather(*aws)`: how many of the
awaitables were scheduled and run to completion, and the exception (if any)
the `await` re-raises to the caller. -/
structure GatherRun where
  completed : Nat
  raised : Option String
deriving DecidableEq, Repr

/-- Models `asyncio.gather(*aws)` with the default
`return_exceptions=False`: every awaitable is scheduled as a task and runs
to completion regardless of the others (a failing sibling does not cancel
it), but the first raised exception is propagated to the awaiter of the
gather. -/
def asyncioGather (outcomes : List HookOutcome) : GatherRun :=
  ⟨outcomes.length, (outcomes.find? HookOutcome.isError).bind HookOutcome.errMsg?⟩

/-- One notifier backend held by `MultiNotifier`, reduced to the outcomes
its four lifecycle hooks produce when awaited. -/
structure NotifierBackend where
  add_task : String → HookOutcome
  remove_task : String → HookOutcome
  notify_task_subscribers : String → HookOutcome
  notify_queue_positions : HookOutcome

/-- `MultiNotifier` from `docling_serve/notifier.py`: the ordered,
fixed-at-construction backend list. -/
structure MultiNotifier where
  notifiers : List NotifierBackend

/-- `MultiNotifier.add_task`: `await asyncio.gather(*(n.add_task(task_id)
for n in self.notifiers))`. -/
def MultiNotifier.add_task (m : MultiNotifier) (task_id : String) : GatherRun :=
  asyncioGather (m.notifiers.map (fun n => n.add_task task_id))

/-- `MultiNotifier.remove_task`. -/
def MultiNotifier.remove_task (m : MultiNotifier) (task_id : String) : GatherRun :=
  asyncioGather (m.notifiers.map (fun n => n.remove_task task_id))

/-- `MultiNotifier.notify_task_subscribers`. -/
def MultiNotifier.notify_task_subscribers (m : MultiNotifier) (task_id : String) :
    GatherRun :=
  asyncioGather (m.notifiers.map (fun n => n.notify_task_subscribers task_id))

/-- `MultiNotifier.notify_queue_positions`. -/
def MultiNotifier.notify_queue_positions (m : MultiNotifier) : GatherRun :=
  asyncioGather (m.notifiers.map (fun n => n.notify_queue_positions))

/-- Python `parsed.hostname not in allowed_hosts`: a `None` hostname is
never `in` a list of strings, so it counts as absent. -/
def hostAbsent (hostname : Option String) (allowed_hosts : List String) : Bool :=
  match hostname with
  | some h => decide (h ∉ allowed_hosts)
  | none => true

/-- `validate_webhook_url` from `docling_serve/datamodel/webhook.py`.  The
URL is represented by its parse: `urlparse(str(url)).scheme` (always a
string, possibly empty) and `urlparse(str(url)).hostname` (possibly
`None`).  Python sequence truthiness: an allow-list restricts only when
non-empty. -/
def validate_webhook_url (scheme : String) (hostname : Option String)
    (allowed_hosts allowed_schemes : List String) : Except String Unit :=
  if allowed_schemes ≠ [] ∧ scheme ∉ allowed_schemes then
    .error ("Webhook URL scheme " ++ scheme ++ " is not allowed.")
  else if allowed_hosts ≠ [] ∧ hostAbsent hostname allowed_hosts then
    .error "Webhook host is not in the allowed host list."
  else
    .ok ()

/-- Whether `validate_webhook_url` raised a `ValueError`. -/
def validationFailed : Except String Unit → Bool
  | .error _ => true
  | .ok _ => false

/-- The failure condition exactly as claim C5 words it: the URL's scheme is
non-empty and not in `allowed_schemes`, or `allowed_hosts` is non-empty and
the URL's host is absent from it (reading the first disjunct together with
the claim's rider that an empty allow-list imposes no restriction). -/
def claimFailCondition (scheme : String) (hostname : Option String)
    (allowed_hosts allowed_schemes : List String) : Prop :=
  (allowed_schemes ≠ [] ∧ scheme ≠ "" ∧ scheme ∉ allowed_schemes) ∨
  (allowed_hosts ≠ [] ∧ hostAbsent hostname allowed_hosts = true)

instance (scheme : String) (hostname : Option String)
    (allowed_hosts allowed_schemes : List String) :
    Decidable (claimFailCondition scheme hostname allowed_hosts allowed_schemes) := by
  unfold claimFailCondition
  exact inferInstance

/-! ### Dictionary lemmas -/

theorem dictGet?_dictSet_self {α : Type} (d : List (String × α)) (k : String) (v : α) :
    dictGet? (dictSet d k v) k = some v := by
  induction d with
  | nil => simp [dictSet, dictGet?]
  | cons kv rest ih =>
    by_cases h : kv.1 = k
    · simp [dictSet, dictGet?, h]
    · simp [dictSet, dictGet?, h, ih]

theorem dictGet?_dictSet_ne {α : Type} (d : List (String × α)) (k' k : String) (v : α)
    (h : k' ≠ k) : dictGet? (dictSet d k' v) k = dictGet? d k := by
  induction d with
  | nil => simp [dictSet, dictGet?, h]
  | cons kv rest ih =>
    by_cases hk : kv.1 = k'
    · simp [dictSet, dictGet?, hk, h]
    · simp [dictSet, dictGet?, hk, ih]

theorem dictGet?_dictMerge_not_mem {α : Type} (b a : List (String × α)) (k : String)
    (h : ∀ kv ∈ b, kv.1 ≠ k) : dictGet? (dictMerge a b) k = dictGet? a k := by
  induction b generalizing a with
  | nil => simp [dictMerge]
  | cons kv rest ih =>
    have hkv : kv.1 ≠ k := h kv (List.mem_cons_self kv rest)
    have hrest : ∀ kv' ∈ rest, kv'.1 ≠ k := fun kv' hm => h kv' (List.mem_cons_of_mem kv hm)
    show dictGet? (dictMerge (dictSet a kv.1 kv.2) rest) k = dictGet? a k
    rw [ih (dictSet a kv.1 kv.2) hrest, dictGet?_dictSet_ne a kv.1 k kv.2 hkv]

theorem dictGet?_dictPop_self {α : Type} (d : List (String × α)) (k : String) :
    dictGet? (dictPop d k) k = none := by
  induction d with
  | nil => simp [dictPop, dictGet?]
  | cons kv rest ih =>
    by_cases h : kv.1 = k
    · simpa [dictPop, List.filter_cons, h] using ih
    · simpa [dictPop, List.filter_cons, dictGet?, h] using ih

theorem dictGet?_dictPop_ne {α : Type} (d : List (String × α)) (k k' : String)
    (h : k' ≠ k) : dictGet? (dictPop d k) k' = dictGet? d k' := by
  induction d with
  | nil => simp [dictPop, dictGet?]
  | cons kv rest ih =>
    by_cases hk : kv.1 = k
    · have hne : k ≠ k' := fun hkk => h hkk.symm
      simpa [dictPop, List.filter_cons, dictGet?, hk, hne] using ih
    · by_cases hk' : kv.1 = k'
      · simp [dictPop, List.filter_cons, dictGet?, hk, hk', h]
      · simpa [dictPop, List.filter_cons, dictGet?, hk, hk'] using ih

theorem mem_filter_ne {x k : String} {l : List String} :
    x ∈ l.filter (fun y => decide (y ≠ k)) ↔ x ∈ l ∧ x ≠ k := by
  simp [List.mem_filter]

/-! ### `notify_task_subscribers` lemmas -/

theorem notify_noConfig (st : HttpNotifierState) (task_id : String)
    (fetch : FetchResult) (resultKey : Option String)
    (h : dictGet? st.webhook_configs task_id = none) :
    notify_task_subscribers st task_id fetch resultKey = ⟨st, false, none⟩ := by
  simp [notify_task_subscribers, h]

theorem notify_alreadyDispatched (st : HttpNotifierState) (task_id : String)
    (fetch : FetchResult) (resultKey : Option String)
    (h : task_id ∈ st.dispatched) :
    notify_task_subscribers st task_id fetch resultKey = ⟨st, false, none⟩ := by
  unfold notify_task_subscribers
  cases hc : dictGet? st.webhook_configs task_id <;> simp [h]

theorem notify_spawned_mem (st : HttpNotifierState) (task_id : String)
    (fetch : FetchResult) (resultKey : Option String)
    (h : (notify_task_subscribers st task_id fetch resultKey).spawned.isSome = true) :
    task_id ∈ (notify_task_subscribers st task_id fetch resultKey).state.dispatched := by
  unfold notify_task_subscribers at *
  cases hc : dictGet? st.webhook_configs task_id with
  | none => simp [hc] at h
  | some config =>
    by_cases hd : task_id ∈ st.dispatched
    · simp [hc, hd] at h
    · cases fetch with
      | failure => simp [hc, hd] at h
      | ok task =>
        by_cases ht : task.completed = false
        · simp [hc, hd, ht] at h
        · simp [hc, hd, ht]

theorem notifyMany_of_dispatched (calls : List (FetchResult × Option String))
    (st : HttpNotifierState) (task_id : String) (h : task_id ∈ st.dispatched) :
    (notifyMany st task_id calls).2 = 0 := by
  induction calls generalizing st with
  | nil => rfl
  | cons c rest ih =>
    obtain ⟨f, rk⟩ := c
    show ((notifyMany (notify_task_subscribers st task_id f rk).state task_id rest).1,
      _ + _).2 = 0
    rw [notify_alreadyDispatched st task_id f rk h]
    simpa using ih st h

theorem notifyMany_le_one (calls : List (FetchResult × Option String))
    (st : HttpNotifierState) (task_id : String) :
    (notifyMany st task_id calls).2 ≤ 1 := by
  induction calls generalizing st with
  | nil => exact Nat.zero_le 1
  | cons c rest ih =>
    obtain ⟨f, rk⟩ := c
    show (_, (if (notify_task_subscribers st task_id f rk).spawned.isSome
      then 1 else 0) + (notifyMany (notify_task_subscribers st task_id f rk).state
        task_id rest).2).2 ≤ 1
    by_cases hs : (notify_task_subscribers st task_id f rk).spawned.isSome = true
    · have hmem := notify_spawned_mem st task_id f rk hs
      rw [notifyMany_of_dispatched rest _ task_id hmem]
      simp [hs]
    · simp only [hs, if_false]
      simpa using ih (notify_task_subscribers st task_id f rk).state

/-! ### Retry-loop lemmas -/

theorem dispatchLoop_req_const (send : Nat → AttemptResult) (req : HttpRequest)
    (backoff : ℚ) (attempts : Nat) (fuel : Nat) :
    ∀ attempt, ∀ r ∈ (dispatchLoop send req backoff attempts attempt fuel).requests,
      r = req := by
  induction fuel with
  | zero => intro attempt r hr; simp [dispatchLoop] at hr
  | succ fuel ih =>
    intro attempt r hr
    by_cases hs : (send attempt).isSuccess = true
    · simp [dispatchLoop, hs] at hr; exact hr
    · by_cases hlt : attempt < attempts - 1
      · simp [dispatchLoop, hs, hlt] at hr
        rcases hr with hr | hr
        · exact hr
        · exact ih (attempt + 1) r hr
      · simp [dispatchLoop, hs, hlt] at hr; exact hr

theorem dispatchLoop_succ_eq (send : Nat → AttemptResult) (req : HttpRequest)
    (backoff : ℚ) (attempts attempt fuel : Nat) :
    dispatchLoop send req backoff attempts attempt (fuel + 1) =
      if (send attempt).isSuccess then ⟨[req], [], true⟩
      else if attempt < attempts - 1 then
        ⟨req :: (dispatchLoop send req backoff attempts (attempt + 1) fuel).requests,
         backoff * 2 ^ attempt ::
           (dispatchLoop send req backoff attempts (attempt + 1) fuel).sleeps,
         (dispatchLoop send req backoff attempts (attempt + 1) fuel).succeeded⟩
      else ⟨[req], [], false⟩ := rfl

theorem dispatchLoop_allFail (send : Nat → AttemptResult) (req : HttpRequest)
    (backoff : ℚ) (attempts : Nat)
    (hfail : ∀ i, (send i).isSuccess = false) :
    ∀ fuel attempt, attempt + fuel = attempts →
      dispatchLoop send req backoff attempts attempt fuel =
        ⟨List.replicate fuel req,
         (List.range' attempt (fuel - 1)).map (fun i => backoff * 2 ^ i), false⟩ := by
  intro fuel
  induction fuel with
  | zero => intro attempt _; simp [dispatchLoop]
  | succ fuel ih =>
    intro attempt hsum
    rw [dispatchLoop_succ_eq, if_neg (by simp [hfail attempt])]
    cases fuel with
    | zero =>
      rw [if_neg (by omega)]
      simp [List.replicate]
    | succ fuel' =>
      rw [if_pos (by omega), ih (attempt + 1) (by omega)]
      have h2 : fuel' + 1 + 1 - 1 = (fuel' + 1 - 1) + 1 := by omega
      simp [List.replicate_succ, h2, List.range'_succ]

theorem dispatchLoop_firstSuccess (send : Nat → AttemptResult) (req : HttpRequest)
    (backoff : ℚ) (attempts : Nat) (k : Nat)
    (hbefore : ∀ j, j < k → (send j).isSuccess = false)
    (hks : (send k).isSuccess = true) (hklt : k < attempts) :
    ∀ fuel attempt, attempt + fuel = attempts → attempt ≤ k →
      dispatchLoop send req backoff attempts attempt fuel =
        ⟨List.replicate (k + 1 - attempt) req,
         (List.range' attempt (k - attempt)).map (fun i => backoff * 2 ^ i), true⟩ := by
  intro fuel
  induction fuel with
  | zero => intro attempt hsum hle; omega
  | succ fuel ih =>
    intro attempt hsum hle
    rw [dispatchLoop_succ_eq]
    by_cases heq : attempt = k
    · subst heq
      rw [if_pos hks]
      have h1 : attempt + 1 - attempt = 1 := by omega
      have h2 : attempt - attempt = 0 := by omega
      simp [h1, h2, List.replicate]
    · rw [if_neg (by simp [hbefore attempt (by omega)]), if_pos (by omega),
        ih (attempt + 1) (by omega) (by omega)]
      have h1 : k + 1 - attempt = (k + 1 - (attempt + 1)) + 1 := by omega
      have h2 : k - attempt = (k - (attempt + 1)) + 1 := by omega
      simp [h1, h2, List.replicate_succ, List.range'_succ]

/-! ### Concrete fixtures for witnesses and counterexamples -/

/-- A plain configuration: no secret, no custom headers, two retries,
backoff factor 1 second. -/
def cfgPlain : WebhookConfig :=
  ⟨some "https://example.com/hook", "POST", none, [], 2, 1⟩

/-- A completed task snapshot. -/
def taskDone : TaskSnapshot := ⟨"t1", "success", "convert", "meta", true⟩

/-- A task snapshot that is still running. -/
def taskRunning : TaskSnapshot := ⟨"t1", "started", "convert", "meta", false⟩

/-- A notifier state with `cfgPlain` registered for task `t1` and nothing
dispatched. -/
def stRegistered : HttpNotifierState := ⟨[("t1", cfgPlain)], []⟩

/-- A stand-in for the HMAC-SHA256 hexdigest, injective on its inputs so
that header equalities are meaningful in witnesses. -/
def hmacFixture (key msg : String) : String := "hmac[" ++ key ++ "|" ++ msg ++ "]"

/-- A transport oracle that always answers HTTP 500. -/
def always500 : Nat → AttemptResult := fun _ => .status 500

/-- A transport oracle that always answers HTTP 200. -/
def always200 : Nat → AttemptResult := fun _ => .status 200

/-! ### Claim theorems -/

/-- C1: At-most-one dispatch attempt sequence per task per process: if no
configuration is registered for the task id, or the id is already in the
dispatched set, `notify_task_subscribers` returns immediately with no
orchestrator fetch, no spawned delivery and no state change; whenever a
delivery is spawned the id is in the dispatched set of the resulting state
(the id is added before the delivery starts); and any sequence of
`notify_task_subscribers` calls on the same id spawns at most one delivery
sequence. -/
theorem at_most_one_dispatch_per_task (st : HttpNotifierState) (task_id : String)
    (fetch : FetchResult) (resultKey : Option String)
    (calls : List (FetchResult × Option String)) :
    (dictGet? st.webhook_configs task_id = none →
      notify_task_subscribers st task_id fetch resultKey = ⟨st, false, none⟩)
    ∧ (task_id ∈ st.dispatched →
      notify_task_subscribers st task_id fetch resultKey = ⟨st, false, none⟩)
    ∧ ((notify_task_subscribers st task_id fetch resultKey).spawned.isSome = true →
      task_id ∈ (notify_task_subscribers st task_id fetch resultKey).state.dispatched)
    ∧ (notifyMany st task_id calls).2 ≤ 1 :=
  ⟨notify_noConfig st task_id fetch resultKey,
   notify_alreadyDispatched st task_id fetch resultKey,
   notify_spawned_mem st task_id fetch resultKey,
   notifyMany_le_one calls st task_id⟩

/-- Witness for C1 at concrete inputs: an unregistered id is a no-op, an
already-dispatched id is a no-op, a spawning call marks the id dispatched,
and two completion notifications spawn at most one delivery. -/
theorem at_most_one_dispatch_per_task_witness :
    notify_task_subscribers ⟨[], []⟩ "t1" .failure none = ⟨⟨[], []⟩, false, none⟩
    ∧ notify_task_subscribers ⟨[("t1", cfgPlain)], ["t1"]⟩ "t1" .failure none
        = ⟨⟨[("t1", cfgPlain)], ["t1"]⟩, false, none⟩
    ∧ "t1" ∈ (notify_task_subscribers stRegistered "t1"
        (.ok taskDone) none).state.dispatched
    ∧ (notifyMany stRegistered "t1" [(.ok taskDone, none), (.ok taskDone, none)]).2 ≤ 1 :=
  ⟨(at_most_one_dispatch_per_task ⟨[], []⟩ "t1" .failure none []).1 rfl,
   (at_most_one_dispatch_per_task ⟨[("t1", cfgPlain)], ["t1"]⟩ "t1" .failure none []).2.1
     (by decide),
   (at_most_one_dispatch_per_task stRegistered "t1" (.ok taskDone) none []).2.2.1 rfl,
   (at_most_one_dispatch_per_task stRegistered "t1" .failure none
     [(.ok taskDone, none), (.ok taskDone, none)]).2.2.2⟩

/-- C7: on a registered, not-yet-dispatched task whose fetched status is not
terminal, `notify_task_subscribers` fetches but spawns nothing and leaves
the state unchanged (both the configuration dict and the dispatched set),
and a later call with a terminal snapshot still spawns the delivery, so the
two-call sequence dispatches exactly once. -/
theorem notify_not_terminal_no_effect (st : HttpNotifierState) (task_id : String)
    (config : WebhookConfig) (task : TaskSnapshot) (resultKey : Option String)
    (hc : dictGet? st.webhook_configs task_id = some config)
    (hd : task_id ∉ st.dispatched)
    (ht : task.completed = false) :
    notify_task_subscribers st task_id (.ok task) resultKey = ⟨st, true, none⟩
    ∧ ∀ task' resultKey', task'.completed = true →
        (notify_task_subscribers st task_id (.ok task') resultKey').spawned =
          some (task_id, config, build_payload task_id task' resultKey')
        ∧ (notifyMany st task_id
            [(.ok task, resultKey), (.ok task', resultKey')]).2 = 1 := by
  have h1 : notify_task_subscribers st task_id (.ok task) resultKey
      = ⟨st, true, none⟩ := by
    simp [notify_task_subscribers, hc, hd, ht]
  refine ⟨h1, fun task' resultKey' ht' => ?_⟩
  have h2 : (notify_task_subscribers st task_id (.ok task') resultKey').spawned =
      some (task_id, config, build_payload task_id task' resultKey') := by
    simp [notify_task_subscribers, hc, hd, ht']
  refine ⟨h2, ?_⟩
  simp [notifyMany, h1, h2]

/-- Witness for C7: with `cfgPlain` registered for `t1`, a running-task
notification is a no-op and a follow-up completed-task notification spawns
the delivery; the pair spawns exactly once. -/
theorem notify_not_terminal_no_effect_witness :
    notify_task_subscribers stRegistered "t1" (.ok taskRunning) none
      = ⟨stRegistered, true, none⟩
    ∧ (notify_task_subscribers stRegistered "t1" (.ok taskDone) (some "key")).spawned
        = some ("t1", cfgPlain, build_payload "t1" taskDone (some "key"))
    ∧ (notifyMany stRegistered "t1"
        [(.ok taskRunning, none), (.ok taskDone, some "key")]).2 = 1 := by
  have h := notify_not_terminal_no_effect stRegistered "t1" cfgPlain taskRunning none
    rfl (by decide) rfl
  exact ⟨h.1, (h.2 taskDone (some "key") rfl).1, (h.2 taskDone (some "key") rfl).2⟩

/-- C8: `remove_task` deletes the stored configuration and the dispatched
marker of the given id and nothing else (other ids keep their configuration
and dispatched status), and `notify_task_subscribers` after `remove_task`
on the same id is a no-op: no fetch, no spawned delivery, no state
change. -/
theorem remove_task_deletes_config_and_marker (st : HttpNotifierState)
    (task_id k : String) (fetch : FetchResult) (resultKey : Option String) :
    dictGet? (st.remove_task task_id).webhook_configs task_id = none
    ∧ task_id ∉ (st.remove_task task_id).dispatched
    ∧ (k ≠ task_id →
        dictGet? (st.remove_task task_id).webhook_configs k
          = dictGet? st.webhook_configs k
        ∧ (k ∈ (st.remove_task task_id).dispatched ↔ k ∈ st.dispatched))
    ∧ notify_task_subscribers (st.remove_task task_id) task_id fetch resultKey
        = ⟨st.remove_task task_id, false, none⟩ := by
  refine ⟨dictGet?_dictPop_self st.webhook_configs task_id, ?_, fun hk => ⟨?_, ?_⟩, ?_⟩
  · simp [HttpNotifierState.remove_task, mem_filter_ne]
  · exact dictGet?_dictPop_ne st.webhook_configs task_id k hk
  · simp [HttpNotifierState.remove_task, mem_filter_ne, hk]
  · exact notify_noConfig _ task_id fetch resultKey
      (dictGet?_dictPop_self st.webhook_configs task_id)

/-- Witness for C8: removing `t1` from a state where it is registered and
dispatched clears both entries, leaves another id `t2` untouched, and makes
a subsequent notification a no-op. -/
theorem remove_task_deletes_config_and_marker_witness :
    dictGet? ((⟨[("t1", cfgPlain), ("t2", cfgPlain)], ["t1", "t2"]⟩ :
        HttpNotifierState).remove_task "t1").webhook_configs "t1" = none
    ∧ "t1" ∉ ((⟨[("t1", cfgPlain), ("t2", cfgPlain)], ["t1", "t2"]⟩ :
        HttpNotifierState).remove_task "t1").dispatched
    ∧ dictGet? ((⟨[("t1", cfgPlain), ("t2", cfgPlain)], ["t1", "t2"]⟩ :
        HttpNotifierState).remove_task "t1").webhook_configs "t2"
        = some cfgPlain
    ∧ notify_task_subscribers ((⟨[("t1", cfgPlain), ("t2", cfgPlain)],
        ["t1", "t2"]⟩ : HttpNotifierState).remove_task "t1") "t1"
        (.ok taskDone) none
        = ⟨(⟨[("t1", cfgPlain), ("t2", cfgPlain)], ["t1", "t2"]⟩ :
            HttpNotifierState).remove_task "t1", false, none⟩ := by
  have h := remove_task_deletes_config_and_marker
    ⟨[("t1", cfgPlain), ("t2", cfgPlain)], ["t1", "t2"]⟩ "t1" "t2" (.ok taskDone) none
  refine ⟨h.1, h.2.1, ?_, h.2.2.2⟩
  have h2 := (h.2.2.1 (by decide)).1
  rw [h2]; rfl

/-- C9: on a registered, not-yet-dispatched task, an orchestrator lookup
failure makes `notify_task_subscribers` return normally (the embedding is a
total function: the source catches the exception) with no spawned delivery
and the state unchanged, and a later successful notification for the same
task still spawns the delivery. -/
theorem fetch_failure_logged_and_recoverable (st : HttpNotifierState)
    (task_id : String) (config : WebhookConfig) (resultKey : Option String)
    (hc : dictGet? st.webhook_configs task_id = some config)
    (hd : task_id ∉ st.dispatched) :
    notify_task_subscribers st task_id .failure resultKey = ⟨st, true, none⟩
    ∧ ∀ task resultKey', task.completed = true →
        (notify_task_subscribers st task_id (.ok task) resultKey').spawned =
          some (task_id, config, build_payload task_id task resultKey') := by
  constructor
  · simp [notify_task_subscribers, hc, hd]
  · intro task resultKey' ht
    simp [notify_task_subscribers, hc, hd, ht]

/-- Witness for C9: with `cfgPlain` registered for `t1`, a failed lookup is
a state-preserving no-op and a later completed-task notification spawns the
delivery. -/
theorem fetch_failure_logged_and_recoverable_witness :
    notify_task_subscribers stRegistered "t1" .failure none
      = ⟨stRegistered, true, none⟩
    ∧ (notify_task_subscribers stRegistered "t1" (.ok taskDone) none).spawned
      = some ("t1", cfgPlain, build_payload "t1" taskDone none) := by
  have h := fetch_failure_logged_and_recoverable stRegistered "t1" cfgPlain none
    rfl (by decide)
  exact ⟨h.1, h.2 taskDone none rfl⟩

/-! ### Dispatch helper equations -/

theorem dispatch_trace_def (hmacHex : String → String → String)
    (config : WebhookConfig) (timestamp body : String)
    (send : Nat → AttemptResult) :
    (dispatch hmacHex config timestamp body send).trace =
      dispatchLoop send
        { method := config.method, url := pyStrUrl config.url, body := body
          headers := (dispatch hmacHex config timestamp body send).headers
          timeout := 10 }
        (max config.backoff_factor 0) ((max config.max_retries 0).toNat + 1) 0
        ((max config.max_retries 0).toNat + 1) := rfl

theorem dispatch_signature_def (hmacHex : String → String → String)
    (config : WebhookConfig) (timestamp body : String)
    (send : Nat → AttemptResult) :
    (dispatch hmacHex config timestamp body send).signature_header =
      if pyTruthy config.secret then
        some (hmacHex (config.secret.getD "") (timestamp ++ "." ++ body))
      else none := rfl

theorem dispatch_headers_eq (hmacHex : String → String → String)
    (config : WebhookConfig) (timestamp body : String)
    (send : Nat → AttemptResult) :
    (dispatch hmacHex config timestamp body send).headers =
      dictSet
        (if pyTruthy config.secret then
          dictSet (dictMerge [("Content-Type", "application/json")] config.headers)
            "X-Docling-Signature" (hmacHex (config.secret.getD "") (timestamp ++ "." ++ body))
        else dictMerge [("Content-Type", "application/json")] config.headers)
        "X-Docling-Timestamp" timestamp := by
  unfold dispatch
  cases h : pyTruthy config.secret <;> simp [h]

/-- C2: against a target that never returns a 2xx status, the delivery
sequence with `max_retries = n ≥ 0` and `backoff_factor = b ≥ 0` performs
exactly `n + 1` HTTP attempts, sleeps `b * 2 ^ i` seconds after the i-th
failed attempt while attempts remain (`i` zero-based), and never succeeds;
and if the first 2xx arrives at attempt `k ≤ n`, the sequence stops
immediately: exactly `k + 1` attempts, `k` sleeps, success.  The claim's
concrete instance (`max_retries = 2`, `backoff_factor = 1.0`, always 500:
3 attempts, sleeps 1s then 2s) is the witness. -/
theorem retry_backoff_schedule (hmacHex : String → String → String)
    (config : WebhookConfig) (timestamp body : String)
    (send : Nat → AttemptResult) (n : Nat)
    (hn : config.max_retries = (n : Int))
    (hb : 0 ≤ config.backoff_factor) :
    ((∀ i, (send i).isSuccess = false) →
      (dispatch hmacHex config timestamp body send).trace.requests.length = n + 1
      ∧ (dispatch hmacHex config timestamp body send).trace.sleeps =
          (List.range n).map (fun i => config.backoff_factor * 2 ^ i)
      ∧ (dispatch hmacHex config timestamp body send).trace.succeeded = false)
    ∧ (∀ k, k ≤ n → (∀ j, j < k → (send j).isSuccess = false) →
        (send k).isSuccess = true →
        (dispatch hmacHex config timestamp body send).trace.requests.length = k + 1
        ∧ (dispatch hmacHex config timestamp body send).trace.sleeps =
            (List.range k).map (fun i => config.backoff_factor * 2 ^ i)
        ∧ (dispatch hmacHex config timestamp body send).trace.succeeded = true) := by
  have hbf : max config.backoff_factor 0 = config.backoff_factor := max_eq_left hb
  have hA : (max config.max_retries 0).toNat = n := by rw [hn]; omega
  constructor
  · intro hfail
    rw [dispatch_trace_def, hbf, hA,
      dispatchLoop_allFail send _ config.backoff_factor (n + 1) hfail (n + 1) 0
        (by omega)]
    refine ⟨by simp, ?_, rfl⟩
    simp [List.range_eq_range']
  · intro k hk hbefore hks
    rw [dispatch_trace_def, hbf, hA,
      dispatchLoop_firstSuccess send _ config.backoff_factor (n + 1) k hbefore hks
        (by omega) (n + 1) 0 (by omega) (by omega)]
    refine ⟨by simp, ?_, rfl⟩
    simp [List.range_eq_range']

/-- Witness for C2 at the claim's concrete instance: `max_retries = 2`,
`backoff_factor = 1.0`, endpoint always answering 500: exactly 3 attempts,
sleeps of 1s then 2s, no success; and against an endpoint answering 200 at
once, a single attempt with no sleep. -/
theorem retry_backoff_schedule_witness :
    (dispatch hmacFixture cfgPlain "0" "B" always500).trace.requests.length = 3
    ∧ (dispatch hmacFixture cfgPlain "0" "B" always500).trace.sleeps = [1, 2]
    ∧ (dispatch hmacFixture cfgPlain "0" "B" always500).trace.succeeded = false
    ∧ (dispatch hmacFixture cfgPlain "0" "B" always200).trace.requests.length = 1
    ∧ (dispatch hmacFixture cfgPlain "0" "B" always200).trace.sleeps = []
    ∧ (dispatch hmacFixture cfgPlain "0" "B" always200).trace.succeeded = true := by
  have h5 := (retry_backoff_schedule hmacFixture cfgPlain "0" "B" always500 2 rfl
    (by norm_num [cfgPlain])).1 (fun i => rfl)
  have h2 := (retry_backoff_schedule hmacFixture cfgPlain "0" "B" always200 2 rfl
    (by norm_num [cfgPlain])).2 0 (by omega) (fun j hj => by omega) (by decide)
  refine ⟨h5.1, ?_, h5.2.2, h2.1, ?_, h2.2.2⟩
  · rw [h5.2.1]
    norm_num [cfgPlain, List.range_succ]
  · rw [h2.2.1]
    simp

/-- A configuration whose secret is set but empty. -/
def cfgEmptySecret : WebhookConfig :=
  ⟨some "https://example.com/hook", "POST", some "", [], 0, 1⟩

/-- A configuration with a custom `Content-Type` header. -/
def cfgCustomCT : WebhookConfig :=
  ⟨some "https://example.com/hook", "POST", none, [("Content-Type", "text/plain")], 0, 1⟩

/-- A configuration with secret `"abc"` and a custom header that collides
with the generated timestamp header. -/
def cfgSigCustom : WebhookConfig :=
  ⟨some "https://example.com/hook", "POST", some "abc",
    [("X-Docling-Timestamp", "evil")], 0, 1⟩

theorem sig_ne_ts : ("X-Docling-Timestamp" : String) ≠ "X-Docling-Signature" := by
  decide

/-- Counterexample to C3 as stated: a dispatch whose configured secret is
the empty string carries no `X-Docling-Signature` header at all (the source
branches on the secret's truthiness), though the claim promises a signature
header for every dispatch with a configured secret. -/
theorem signature_for_empty_secret_counterexample :
    cfgEmptySecret.secret = some ""
    ∧ dictGet? (dispatch hmacFixture cfgEmptySecret "7" "B" always200).headers
        "X-Docling-Signature" = none
    ∧ (dispatch hmacFixture cfgEmptySecret "7" "B" always200).signature_header
        = none :=
  ⟨rfl, rfl, rfl⟩

/-- C3 (amended): with a configured non-empty secret `s`, the dispatch's
signature is `hmacSha256Hex s (timestamp ++ "." ++ body)` and every attempt
carries it in the `X-Docling-Signature` header; when the secret is absent
or empty no signature is generated, and — provided the custom headers do
not themselves supply an `X-Docling-Signature` key — the header is absent;
the same serialized body and the same composed headers (hence the same
timestamp and signature) are reused unchanged on every retry attempt. -/
theorem signature_header_semantics (hmacHex : String → String → String)
    (config : WebhookConfig) (timestamp body : String)
    (send : Nat → AttemptResult) :
    (∀ s, config.secret = some s → s ≠ "" →
      (dispatch hmacHex config timestamp body send).signature_header =
        some (hmacHex s (timestamp ++ "." ++ body))
      ∧ dictGet? (dispatch hmacHex config timestamp body send).headers
          "X-Docling-Signature" = some (hmacHex s (timestamp ++ "." ++ body)))
    ∧ (pyTruthy config.secret = false →
      (dispatch hmacHex config timestamp body send).signature_header = none
      ∧ ((∀ kv ∈ config.headers, kv.1 ≠ "X-Docling-Signature") →
        dictGet? (dispatch hmacHex config timestamp body send).headers
          "X-Docling-Signature" = none))
    ∧ ∀ r ∈ (dispatch hmacHex config timestamp body send).trace.requests,
        r.body = body
        ∧ r.headers = (dispatch hmacHex config timestamp body send).headers := by
  refine ⟨?_, ?_, ?_⟩
  · intro s hs hne
    have ht : pyTruthy config.secret = true := by
      rw [hs]; simp [pyTruthy, hne]
    have hgd : config.secret.getD "" = s := by rw [hs]; rfl
    constructor
    · rw [dispatch_signature_def, if_pos ht, hgd]
    · rw [dispatch_headers_eq, if_pos ht, hgd,
        dictGet?_dictSet_ne _ _ _ _ sig_ne_ts, dictGet?_dictSet_self]
  · intro ht
    constructor
    · rw [dispatch_signature_def, if_neg (by simp [ht])]
    · intro hnc
      rw [dispatch_headers_eq, if_neg (by simp [ht]),
        dictGet?_dictSet_ne _ _ _ _ sig_ne_ts,
        dictGet?_dictMerge_not_mem _ _ _ hnc]
      rfl
  · intro r hr
    rw [dispatch_trace_def] at hr
    have := dispatchLoop_req_const send _ (max config.backoff_factor 0)
      ((max config.max_retries 0).toNat + 1) ((max config.max_retries 0).toNat + 1)
      0 r hr
    rw [this]
    exact ⟨rfl, rfl⟩

/-- Witness for C3 (amended): secret `"abc"`, timestamp `"7"`, body `"B"`
produce the signature over `"7.B"` on both attempts of a two-attempt trace,
and the no-secret case carries no signature header. -/
theorem signature_header_semantics_witness :
    (dispatch hmacFixture cfgSigCustom "7" "B" always200).signature_header
      = some (hmacFixture "abc" "7.B")
    ∧ dictGet? (dispatch hmacFixture cfgSigCustom "7" "B" always200).headers
        "X-Docling-Signature" = some (hmacFixture "abc" "7.B")
    ∧ dictGet? (dispatch hmacFixture cfgPlain "7" "B" always200).headers
        "X-Docling-Signature" = none
    ∧ ∀ r ∈ (dispatch hmacFixture cfgPlain "7" "B" always500).trace.requests,
        r.body = "B" := by
  have h1 := (signature_header_semantics hmacFixture cfgSigCustom "7" "B"
    always200).1 "abc" rfl (by decide)
  have h2 := ((signature_header_semantics hmacFixture cfgPlain "7" "B"
    always200).2.1 rfl).2 (by simp [cfgPlain])
  refine ⟨h1.1, h1.2, h2, fun r hr => ?_⟩
  exact ((signature_header_semantics hmacFixture cfgPlain "7" "B"
    always500).2.2 r hr).1

/-- C10: a `WebhookConfig` whose secret is the empty string is treated
exactly like a config with no secret: the entire dispatch outcome equals
that of the same config with `secret := none`, and no signature is
generated, because the signature branch tests the secret's Python
truthiness rather than its presence. -/
theorem empty_secret_like_no_secret (hmacHex : String → String → String)
    (config : WebhookConfig) (timestamp body : String)
    (send : Nat → AttemptResult)
    (h : config.secret = some "") :
    dispatch hmacHex config timestamp body send =
      dispatch hmacHex { config with secret := none } timestamp body send
    ∧ (dispatch hmacHex config timestamp body send).signature_header = none := by
  have ht : pyTruthy config.secret = false := by rw [h]; rfl
  constructor
  · unfold dispatch
    rw [ht]
    rfl
  · rw [dispatch_signature_def, if_neg (by simp [ht])]

/-- Witness for C10: at the concrete empty-secret configuration, the
dispatch outcome coincides with the secret-free variant and carries no
generated signature. -/
theorem empty_secret_like_no_secret_witness :
    dispatch hmacFixture cfgEmptySecret "7" "B" always200 =
      dispatch hmacFixture { cfgEmptySecret with secret := none } "7" "B" always200
    ∧ (dispatch hmacFixture cfgEmptySecret "7" "B" always200).signature_header
        = none :=
  empty_secret_like_no_secret hmacFixture cfgEmptySecret "7" "B" always200 rfl

/-- Counterexample to C6 as stated: a configured custom header whose key is
literally `Content-Type` overrides the default, so this dispatch's headers
do not include `Content-Type: application/json`. -/
theorem content_type_override_counterexample :
    dictGet? (dispatch hmacFixture cfgCustomCT "1" "B" always200).headers
        "Content-Type" = some "text/plain"
    ∧ dictGet? (dispatch hmacFixture cfgCustomCT "1" "B" always200).headers
        "Content-Type" ≠ some "application/json" := by
  refine ⟨rfl, ?_⟩
  decide

/-- C6 (amended): every attempt's headers carry `X-Docling-Timestamp` equal
to the generated timestamp, and `X-Docling-Signature` equal to the
generated digest when a non-empty secret is configured — custom headers
with those literal keys are silently overwritten, because configured
headers are merged before the dispatch-generated ones and the last write
wins; `Content-Type` is `application/json` unless a custom header with
exactly that key is configured, in which case the custom value wins; and
every attempt carries the same composed headers. -/
theorem dispatch_headers_semantics (hmacHex : String → String → String)
    (config : WebhookConfig) (timestamp body : String)
    (send : Nat → AttemptResult) :
    dictGet? (dispatch hmacHex config timestamp body send).headers
        "X-Docling-Timestamp" = some timestamp
    ∧ (∀ s, config.secret = some s → s ≠ "" →
        dictGet? (dispatch hmacHex config timestamp body send).headers
          "X-Docling-Signature" = some (hmacHex s (timestamp ++ "." ++ body)))
    ∧ ((∀ kv ∈ config.headers, kv.1 ≠ "Content-Type") →
        dictGet? (dispatch hmacHex config timestamp body send).headers
          "Content-Type" = some "application/json")
    ∧ ∀ r ∈ (dispatch hmacHex config timestamp body send).trace.requests,
        r.headers = (dispatch hmacHex config timestamp body send).headers := by
  refine ⟨?_, ?_, ?_, ?_⟩
  · rw [dispatch_headers_eq, dictGet?_dictSet_self]
  · intro s hs hne
    exact ((signature_header_semantics hmacHex config timestamp body send).1
      s hs hne).2
  · intro hnc
    have hct_ts : ("X-Docling-Timestamp" : String) ≠ "Content-Type" := by decide
    have hct_sig : ("X-Docling-Signature" : String) ≠ "Content-Type" := by decide
    rw [dispatch_headers_eq]
    by_cases ht : pyTruthy config.secret
    · rw [if_pos ht, dictGet?_dictSet_ne _ _ _ _ hct_ts,
        dictGet?_dictSet_ne _ _ _ _ hct_sig,
        dictGet?_dictMerge_not_mem _ _ _ hnc]
      rfl
    · rw [if_neg ht, dictGet?_dictSet_ne _ _ _ _ hct_ts,
        dictGet?_dictMerge_not_mem _ _ _ hnc]
      rfl
  · intro r hr
    exact ((signature_header_semantics hmacHex config timestamp body send).2.2
      r hr).2

/-- Witness for C6 (amended): with secret `"abc"` and a custom header
literally named `X-Docling-Timestamp`, the generated timestamp and
signature win, and the default content-type is present when no custom
`Content-Type` is configured. -/
theorem dispatch_headers_semantics_witness :
    dictGet? (dispatch hmacFixture cfgSigCustom "7" "B" always200).headers
        "X-Docling-Timestamp" = some "7"
    ∧ dictGet? (dispatch hmacFixture cfgSigCustom "7" "B" always200).headers
        "X-Docling-Signature" = some (hmacFixture "abc" "7.B")
    ∧ dictGet? (dispatch hmacFixture cfgSigCustom "7" "B" always200).headers
        "Content-Type" = some "application/json" := by
  have h := dispatch_headers_semantics hmacFixture cfgSigCustom "7" "B" always200
  exact ⟨h.1, h.2.1 "abc" rfl (by decide), h.2.2.1 (by simp [cfgSigCustom])⟩

/-! ### Fan-out composer -/

theorem asyncioGather_raised_none (outcomes : List HookOutcome) :
    (asyncioGather outcomes).raised = none ↔ ∀ o ∈ outcomes, o.isError = false := by
  show (outcomes.find? HookOutcome.isError).bind HookOutcome.errMsg? = none ↔ _
  cases hf : outcomes.find? HookOutcome.isError with
  | none =>
    rw [List.find?_eq_none] at hf
    simp only [Option.none_bind, true_iff]
    intro o ho
    simpa using hf o ho
  | some o =>
    have ho : o.isError = true := List.find?_some hf
    have hm : o ∈ outcomes := List.mem_of_find?_eq_some hf
    cases o with
    | ok => simp [HookOutcome.isError] at ho
    | error m =>
      simp only [HookOutcome.errMsg?, Option.some_bind]
      constructor
      · intro h; cases h
      · intro h
        have := h (.error m) hm
        simp [HookOutcome.isError] at this

theorem gather_map_raised_none {β : Type} (l : List β) (f : β → HookOutcome) :
    (asyncioGather (l.map f)).raised = none ↔ ∀ n ∈ l, (f n).isError = false := by
  rw [asyncioGather_raised_none]
  simp

/-- A backend whose hooks all return normally. -/
def backendOk : NotifierBackend := ⟨fun _ => .ok, fun _ => .ok, fun _ => .ok, .ok⟩

/-- A backend whose hooks all raise. -/
def backendFailing : NotifierBackend :=
  ⟨fun _ => .error "boom", fun _ => .error "boom", fun _ => .error "boom",
    .error "boom"⟩

/-- A composer holding a failing backend followed by a healthy one. -/
def composerTwo : MultiNotifier := ⟨[backendFailing, backendOk]⟩

/-- Counterexample to C4 as stated: in a composer holding a raising backend
and a healthy one, both backends' hooks are invoked and run to completion,
but `asyncio.gather` with its default `return_exceptions=False` re-raises
the first exception to the caller: the composer does not swallow backend
errors. -/
theorem fanout_error_propagates_counterexample :
    (composerTwo.add_task "t").completed = 2
    ∧ (composerTwo.add_task "t").raised = some "boom"
    ∧ (composerTwo.add_task "t").raised ≠ none := by
  refine ⟨rfl, rfl, ?_⟩
  decide

/-- C4 (amended): for each of the four lifecycle hooks, the composer
schedules every held backend's same-named hook and all of them run to
completion regardless of failures in the others (`completed` equals the
number of backends), but the hook does not aggregate failures silently: the
await raises exactly when some backend's hook raised (the first observed
exception propagates to the caller, the default `asyncio.gather`
behaviour). -/
theorem fanout_all_backends_run (m : MultiNotifier) (task_id : String) :
    ((m.add_task task_id).completed = m.notifiers.length
      ∧ ((m.add_task task_id).raised = none ↔
          ∀ n ∈ m.notifiers, (n.add_task task_id).isError = false))
    ∧ ((m.remove_task task_id).completed = m.notifiers.length
      ∧ ((m.remove_task task_id).raised = none ↔
          ∀ n ∈ m.notifiers, (n.remove_task task_id).isError = false))
    ∧ ((m.notify_task_subscribers task_id).completed = m.notifiers.length
      ∧ ((m.notify_task_subscribers task_id).raised = none ↔
          ∀ n ∈ m.notifiers, (n.notify_task_subscribers task_id).isError = false))
    ∧ (m.notify_queue_positions.completed = m.notifiers.length
      ∧ (m.notify_queue_positions.raised = none ↔
          ∀ n ∈ m.notifiers, n.notify_queue_positions.isError = false)) :=
  ⟨⟨by simp [MultiNotifier.add_task, asyncioGather],
    gather_map_raised_none m.notifiers _⟩,
   ⟨by simp [MultiNotifier.remove_task, asyncioGather],
    gather_map_raised_none m.notifiers _⟩,
   ⟨by simp [MultiNotifier.notify_task_subscribers, asyncioGather],
    gather_map_raised_none m.notifiers _⟩,
   ⟨by simp [MultiNotifier.notify_queue_positions, asyncioGather],
    gather_map_raised_none m.notifiers _⟩⟩

/-! ### URL validation -/

/-- Counterexample to C5 as stated: `urlparse` yields an empty scheme for a
URL like `//example.com/hook`; with `allowed_schemes = ["https"]` and no
host restriction the code rejects it (the guard tests that the allow-list
is non-empty, not that the scheme is), while the claim's condition — scheme
non-empty and not allowed, or host restricted and absent — does not hold,
so the claim's "exactly when" is false at this input. -/
theorem validate_empty_scheme_counterexample :
    validationFailed (validate_webhook_url "" (some "example.com") [] ["https"])
      = true
    ∧ ¬ claimFailCondition "" (some "example.com") [] ["https"] := by
  constructor
  · decide
  · decide

/-- C5 (amended): `validate_webhook_url` fails exactly when
`allowed_schemes` is non-empty and the URL's scheme (empty or not) is
absent from it, or `allowed_hosts` is non-empty and the URL's host is
absent from it (a missing host counts as absent); empty allow-lists impose
no restriction; in particular an `ftp` URL against
`allowed_schemes = ["https"]` fails while the same URL with scheme `https`
and host in `allowed_hosts` passes. -/
theorem validate_webhook_url_characterization (scheme : String)
    (hostname : Option String) (allowed_hosts allowed_schemes : List String) :
    (validationFailed
        (validate_webhook_url scheme hostname allowed_hosts allowed_schemes) = true ↔
      ((allowed_schemes ≠ [] ∧ scheme ∉ allowed_schemes) ∨
       (allowed_hosts ≠ [] ∧ hostAbsent hostname allowed_hosts = true)))
    ∧ validationFailed (validate_webhook_url "ftp" (some "example.com")
        ["example.com"] ["https"]) = true
    ∧ validationFailed (validate_webhook_url "https" (some "example.com")
        ["example.com"] ["https"]) = false := by
  refine ⟨?_, by decide, by decide⟩
  unfold validate_webhook_url validationFailed
  by_cases h1 : allowed_schemes ≠ [] ∧ scheme ∉ allowed_schemes
  · simp [h1]
  · by_cases h2 : allowed_hosts ≠ [] ∧ hostAbsent hostname allowed_hosts = true
    · simp [h1, h2]
    · simp [h1, h2]

end DoclingServe
